import Mathlib

/-!
Verification of the aro-admission-controller decision engine.

The definitions below are a shallow embedding of the Go sources
(`handlers.go`, revision with `handleWhitelist`/`handleSCC`; referred to
below by its function names).  Go maps with string keys are modelled as
association lists whose lookup defaults to the empty string (the Go zero
value); Go slices are modelled as `List`; compiled regular expressions
(`regexp.Regexp`, vendored third-party code) are abstracted to their
match predicate `String → Bool`; the vendored OpenShift
`securitycontextconstraints` provider pipeline is abstracted to an
explicit parameter.  Handlers are modelled from the point where the
transport layer has produced a decoded admission request; writing an
HTTP error, sending a JSON-encoded review response, and a Go runtime
panic are the three observable outcomes.
-/

namespace AroAdmission

/-- Go map lookup on a `map[string]string`, returning the zero value `""`
when the key is absent (association-list model). -/
def lookupD (m : List (String × String)) (k : String) : String :=
  match m.find? (fun p => p.fst == k) with
  | some p => p.snd
  | none => ""

/-- `metav1.ObjectMeta`, restricted to the fields the data flow of this program
touches (name, namespace, labels, annotations and the opaque identifying
strings the test fixtures carry).  All fields default to Go zero values so
that `{}` is the zero `ObjectMeta` the code compares against. -/
structure ObjectMeta where
  name : String := ""
  namespaceF : String := ""
  labels : List (String × String) := []
  annotationsF : List (String × String) := []
  uid : String := ""
  resourceVersion : String := ""
  selfLink : String := ""
  creationTimestamp : String := ""
deriving DecidableEq, Repr

/-- `core.Container`: image plus the per-container security fields the
claims quantify over. -/
structure Container where
  image : String := ""
  privileged : Option Bool := none
  runAsUser : Option Int := none
  allowPrivilegeEscalation : Option Bool := none
deriving DecidableEq, Repr

/-- `core.PodSpec`, restricted to the fields read by the whitelist gate
plus representative security-relevant fields (so that theorems can
quantify over "any other field"). -/
structure PodSpec where
  containers : List Container := []
  initContainers : List Container := []
  nodeSelector : Option (List (String × String)) := none
  nodeName : String := ""
  hostNetwork : Bool := false
  hostPID : Bool := false
  hostIPC : Bool := false
  runAsUser : Option Int := none
deriving DecidableEq, Repr

/-- `core.Pod`: spec plus object metadata. -/
structure Pod where
  spec : PodSpec := {}
  metadata : ObjectMeta := {}
deriving DecidableEq, Repr

/-- A compiled whitelist pattern (`*regexp.Regexp`), abstracted to its
match predicate: `p image = true` iff `p.MatchString(image)` in Go. -/
abbrev ImagePattern := String → Bool

/-- `imageIsWhitelisted` from handlers.go: true iff some configured
pattern matches the image (loop with early return). -/
def imageIsWhitelisted (image : String) (whitelistedImages : List ImagePattern) : Bool :=
  whitelistedImages.any (fun rx => rx image)

/-- The first early-return of `podSpecIsWhitelisted`: the Go code guards
with `spec.NodeSelector != nil` and then reads the two role keys with
zero-value default. -/
def nodeSelectorWhitelisted : Option (List (String × String)) → Bool
  | none => false
  | some sel =>
      lookupD sel "node-role.kubernetes.io/master" == "true"
        || lookupD sel "node-role.kubernetes.io/infra" == "true"

/-- `podSpecIsWhitelisted` from handlers.go: nodeSelector gate, then
nodeName-prefix gate, then every image of `Containers ++ InitContainers`
must be whitelisted (empty concatenation passes the loop vacuously). -/
def podSpecIsWhitelisted (spec : PodSpec) (whitelistedImages : List ImagePattern) : Bool :=
  if nodeSelectorWhitelisted spec.nodeSelector then
    true
  else if spec.nodeName.startsWith "master-" || spec.nodeName.startsWith "infra-" then
    true
  else
    (spec.containers ++ spec.initContainers).all
      (fun c => imageIsWhitelisted c.image whitelistedImages)

/-- "The nodeSelector maps key `k` to value `v`" (reference reading used
by the specification: an absent selector maps nothing). -/
def selectorMaps (sel : Option (List (String × String))) (k v : String) : Bool :=
  match sel with
  | none => false
  | some m => lookupD m k == v

/-- Reference definition of the whitelist gate, written from the words
of the specification (§4.2): three ordered, short-circuiting steps; in
step 3 the multiset of every container and init-container image must each
match at least one configured pattern, the empty multiset being vacuously
exempt. -/
def podSpecWhitelistedSpec (spec : PodSpec) (whitelistedImages : List ImagePattern) : Bool :=
  if selectorMaps spec.nodeSelector "node-role.kubernetes.io/master" "true"
      || selectorMaps spec.nodeSelector "node-role.kubernetes.io/infra" "true" then
    true
  else if spec.nodeName.startsWith "master-" || spec.nodeName.startsWith "infra-" then
    true
  else
    ((spec.containers ++ spec.initContainers).map (fun c => c.image)).all
      (fun img => whitelistedImages.any (fun rx => rx img))

/-- `security.IDRange` (origin 3.11 internal security API). -/
structure IDRange where
  min : Int := 0
  max : Int := 0
deriving DecidableEq, Repr

/-- `core.SELinuxOptions`. -/
structure SELinuxOptions where
  user : String := ""
  role : String := ""
  typeF : String := ""
  level : String := ""
deriving DecidableEq, Repr

/-- `security.SELinuxContextStrategyOptions`. -/
structure SELinuxContextStrategyOptions where
  typeF : String := ""
  seLinuxOptions : Option SELinuxOptions := none
deriving DecidableEq, Repr

/-- `security.RunAsUserStrategyOptions`. -/
structure RunAsUserStrategyOptions where
  typeF : String := ""
  uid : Option Int := none
  uidRangeMin : Option Int := none
  uidRangeMax : Option Int := none
deriving DecidableEq, Repr

/-- `security.FSGroupStrategyOptions`. -/
structure FSGroupStrategyOptions where
  typeF : String := ""
  ranges : List IDRange := []
deriving DecidableEq, Repr

/-- `security.SupplementalGroupsStrategyOptions`. -/
structure SupplementalGroupsStrategyOptions where
  typeF : String := ""
  ranges : List IDRange := []
deriving DecidableEq, Repr

/-- `security.AllowedFlexVolume`. -/
structure AllowedFlexVolume where
  driver : String := ""
deriving DecidableEq, Repr

/-- `security.SecurityContextConstraints` (origin 3.11 internal type):
type metadata, object metadata, and the full strategy field inventory, so
that the whole-value comparison of the guard ranges over every non-principal
field. -/
structure SecurityContextConstraints where
  apiVersion : String := ""
  kind : String := ""
  objectMeta : ObjectMeta := {}
  priority : Option Int := none
  allowPrivilegedContainer : Bool := false
  defaultAddCapabilities : List String := []
  requiredDropCapabilities : List String := []
  allowedCapabilities : List String := []
  allowHostDirVolumePlugin : Bool := false
  volumes : List String := []
  allowedFlexVolumes : List AllowedFlexVolume := []
  allowHostNetwork : Bool := false
  allowHostPorts : Bool := false
  allowHostPID : Bool := false
  allowHostIPC : Bool := false
  defaultAllowPrivilegeEscalation : Option Bool := none
  allowPrivilegeEscalation : Option Bool := none
  seLinuxContext : SELinuxContextStrategyOptions := {}
  runAsUser : RunAsUserStrategyOptions := {}
  supplementalGroups : SupplementalGroupsStrategyOptions := {}
  fsGroup : FSGroupStrategyOptions := {}
  readOnlyRootFilesystem : Bool := false
  users : List String := []
  groups : List String := []
  seccompProfiles : List String := []
  allowedUnsafeSysctls : List String := []
  forbiddenSysctls : List String := []
deriving DecidableEq, Repr

/-- The violations `verifySCC` can append, in the rendering
order of the code itself: ownership label, group removal, user removal, other-field
modification. -/
inductive SCCViolation where
  | labelMissing
  | groupRemoved (g : String)
  | userRemoved (u : String)
  | otherFieldsModified
deriving DecidableEq, Repr

/-- The `fmt.Errorf` message of each violation, verbatim from
handlers.go. -/
def renderSCCViolation : SCCViolation → String
  | .labelMissing =>
      "Protected SCC has to have the \"azure.openshift.io/owned-by-sync-pod\" label set to true"
  | .groupRemoved g => "Removal of Group " ++ g ++ " from SCC is not allowed"
  | .userRemoved u => "Removal of User " ++ u ++ " from SCC is not allowed"
  | .otherFieldsModified =>
      "Modification of fields other than Users and Groups in the SCC is not allowed"

/-- The ownership label key checked by `verifySCC`. -/
def ownedBySyncPodLabel : String := "azure.openshift.io/owned-by-sync-pod"

/-- `verifySCC` from handlers.go.  The label check reads the labels of the candidate with Go zero-value default; each principal loop appends one
violation for the first template element missing from the candidate and
breaks (`List.find?`); the final comparison deep-copies both sides,
zeroes `Users`/`Groups` on both and `ObjectMeta` on the candidate only,
then requires `reflect.DeepEqual`. -/
def verifySCC (scc sccTemplate : SecurityContextConstraints) : List SCCViolation :=
  let labelErrs : List SCCViolation :=
    if lookupD scc.objectMeta.labels ownedBySyncPodLabel != "true" then
      [.labelMissing]
    else []
  let groupErrs : List SCCViolation :=
    match sccTemplate.groups.find? (fun g => ! scc.groups.contains g) with
    | some g => [.groupRemoved g]
    | none => []
  let userErrs : List SCCViolation :=
    match sccTemplate.users.find? (fun u => ! scc.users.contains u) with
    | some u => [.userRemoved u]
    | none => []
  let localSccTemplate : SecurityContextConstraints :=
    { sccTemplate with users := [], groups := [] }
  let localScc : SecurityContextConstraints :=
    { scc with objectMeta := {}, users := [], groups := [] }
  let modErrs : List SCCViolation :=
    if localScc ≠ localSccTemplate then [.otherFieldsModified] else []
  labelErrs ++ groupErrs ++ userErrs ++ modErrs

/-- Projection: the user named by a user-removal violation. -/
def userRemovedName : SCCViolation → Option String
  | .userRemoved u => some u
  | _ => none

/-- Projection: the group named by a group-removal violation. -/
def groupRemovedName : SCCViolation → Option String
  | .groupRemoved g => some g
  | _ => none

/-- Recognizer for the generic modification violation. -/
def isModificationViolation : SCCViolation → Bool
  | .otherFieldsModified => true
  | _ => false

/-- Recognizer for the ownership-label violation. -/
def isLabelViolation : SCCViolation → Bool
  | .labelMissing => true
  | _ => false

/-- The candidate as `verifySCC` compares it: users, groups and object
metadata zeroed. -/
def stripForCompare (scc : SecurityContextConstraints) : SecurityContextConstraints :=
  { scc with objectMeta := {}, users := [], groups := [] }

/-- The template as `verifySCC` compares it: users and groups zeroed,
object metadata kept. -/
def stripTemplateForCompare (scc : SecurityContextConstraints) : SecurityContextConstraints :=
  { scc with users := [], groups := [] }

/-- The admission response the engine writes back: correlation id,
verdict boolean, and the `metav1.Status` result (status string plus
message). -/
structure AdmissionResponse where
  uid : String
  allowed : Bool
  status : String
  message : String
deriving DecidableEq, Repr

/-- Modelled from the spec: the rendering of a k8s `errors.Aggregate`
(the vendored `k8s.io/apimachinery/pkg/util/errors` implementation is
not under src/).  §4.5: "`aggregate` joins the rendered
message of every violation with a fixed separator, in the order produced by the
evaluator/guard (no reordering, no deduplication)". -/
def aggregateError (errs : List String) : String :=
  String.intercalate ", " errs

/-- `sendResult` from handlers.go: a `metav1.Status` of `Success` unless
the aggregate is non-nil and non-empty, in which case `Failure` with the
rendered message of the aggregate; `Allowed` is exactly `Status == Success`.
The aggregate argument is modelled as its in-order message list (a nil
aggregate is the empty list). -/
def sendResult (errs : List String) (uid : String) : AdmissionResponse :=
  let result : String × String :=
    if ! errs.isEmpty then ("Failure", aggregateError errs) else ("Success", "")
  { uid := uid
    allowed := result.fst == "Success"
    status := result.fst
    message := result.snd }

/-- What a handler does with the response writer: an `http.Error` with a
status code, a JSON-encoded review response, or an `http.Error` followed
by a Go runtime panic (invocation of a nil function). -/
inductive HandlerOutcome where
  | httpError (code : Nat)
  | response (r : AdmissionResponse)
  | httpErrorThenPanic (code : Nat)
deriving DecidableEq, Repr

/-- The vendored OpenShift `securitycontextconstraints` pipeline
(`CreateProviderFromConstraint` + `AssignSecurityContext`), abstracted:
it either fails with an error string or returns the in-order violation
messages of the pod against the restricted SCC (third-party code, not
embedded; `field.ErrorList.ToAggregate` is modelled from the spec as the
in-order message sequence). -/
abbrev SCCValidator := Pod → String → Except String (List String)

/-- `validatePodAgainstSCC` from handlers.go: whitelisted pods are
exempt with no violations and no error; otherwise the restricted-SCC
pipeline runs. -/
def validatePodAgainstSCC (whitelistedImages : List ImagePattern)
    (scValidate : SCCValidator) (pod : Pod) (ns : String) :
    Except String (List String) :=
  if podSpecIsWhitelisted pod.spec whitelistedImages then
    .ok []
  else
    scValidate pod ns

/-- `checkPodSpec` from handlers.go: builds a fresh pod from deep copies
of the supplied spec and metadata, validates it, answers HTTP 500 on a
validation error and otherwise sends the aggregated result. -/
def checkPodSpec (whitelistedImages : List ImagePattern)
    (scValidate : SCCValidator) (podSpec : PodSpec) (oMeta : ObjectMeta)
    (ns uid : String) : HandlerOutcome :=
  let pod : Pod := { spec := podSpec, metadata := oMeta }
  match validatePodAgainstSCC whitelistedImages scValidate pod ns with
  | .error _ => .httpError 500
  | .ok errs => .response (sendResult errs uid)

/-- A decoded workload object: one constructor per kind in the
`unpackers` table, each carrying the canonical (pod template spec,
template metadata, namespace) triple its unpacker extracts, plus `other`
for any decoded object of an unrecognized kind. -/
inductive WorkloadObject where
  | pod (spec : PodSpec) (meta : ObjectMeta) (ns : String)
  | daemonSet (spec : PodSpec) (meta : ObjectMeta) (ns : String)
  | replicaSet (spec : PodSpec) (meta : ObjectMeta) (ns : String)
  | statefulSet (spec : PodSpec) (meta : ObjectMeta) (ns : String)
  | job (spec : PodSpec) (meta : ObjectMeta) (ns : String)
  | cronJob (spec : PodSpec) (meta : ObjectMeta) (ns : String)
  | deploymentConfig (spec : PodSpec) (meta : ObjectMeta) (ns : String)
  | deployment (spec : PodSpec) (meta : ObjectMeta) (ns : String)
  | other (kindName : String)
deriving Repr

/-- The kind tag of a decoded object (`gvkDecoded.Kind`). -/
def kindOf : WorkloadObject → String
  | .pod _ _ _ => "Pod"
  | .daemonSet _ _ _ => "DaemonSet"
  | .replicaSet _ _ _ => "ReplicaSet"
  | .statefulSet _ _ _ => "StatefulSet"
  | .job _ _ _ => "Job"
  | .cronJob _ _ _ => "CronJob"
  | .deploymentConfig _ _ _ => "DeploymentConfig"
  | .deployment _ _ _ => "Deployment"
  | .other k => k

/-- The eight keys of the `unpackers` map in `handleWhitelist`. -/
def recognizedKinds : List String :=
  ["Pod", "DaemonSet", "ReplicaSet", "StatefulSet", "Job", "CronJob",
   "DeploymentConfig", "Deployment"]

/-- The `unpackers` table lookup combined with the per-kind extraction
function: `some` exactly when the decoded kind is a key of the table. -/
def unpackers : WorkloadObject → Option (PodSpec × ObjectMeta × String)
  | .pod s m n => some (s, m, n)
  | .daemonSet s m n => some (s, m, n)
  | .replicaSet s m n => some (s, m, n)
  | .statefulSet s m n => some (s, m, n)
  | .job s m n => some (s, m, n)
  | .cronJob s m n => some (s, m, n)
  | .deploymentConfig s m n => some (s, m, n)
  | .deployment s m n => some (s, m, n)
  | .other _ => none

/-- Payload bytes of an admission request, uninterpreted. -/
abbrev RawPayload := String

/-- The fields of an `AdmissionRequest` that `handleWhitelist` reads
after transport-level validation. -/
structure WhitelistRequest where
  uid : String := ""
  kindGroup : String := ""
  kindVersion : String := ""
  kindKind : String := ""
  raw : RawPayload := ""

/-- `handleWhitelist` from handlers.go, from the point where the
transport produced the request: empty uid/version/kind answer HTTP 400,
an undecodable payload answers HTTP 400, a recognized kind is unpacked
and checked.  For an unrecognized kind the code writes an HTTP 501 error
but is missing a `return`, so it then invokes the nil
`unpackingFunc` — a Go runtime panic. -/
def handleWhitelist (whitelistedImages : List ImagePattern)
    (scValidate : SCCValidator) (decode : RawPayload → Option WorkloadObject)
    (req : WhitelistRequest) : HandlerOutcome :=
  if req.uid == "" || req.kindVersion == "" || req.kindKind == "" then
    .httpError 400
  else
    match decode req.raw with
    | none => .httpError 400
    | some o =>
      match unpackers o with
      | some (spec, meta, ns) =>
          checkPodSpec whitelistedImages scValidate spec meta ns req.uid
      | none => .httpErrorThenPanic 501

/-- The fields of an `AdmissionRequest` that `handleSCC` reads. -/
structure SCCRequest where
  operation : String := ""
  name : String := ""
  uid : String := ""
  raw : RawPayload := ""

/-- Lookup in the protected-SCC map (`ac.protectedSCCs`). -/
def lookupSCC (protectedSCCs : List (String × SecurityContextConstraints))
    (n : String) : Option SecurityContextConstraints :=
  (protectedSCCs.find? (fun p => p.fst == n)).map (fun p => p.snd)

/-- The message for a forbidden deletion, verbatim from handlers.go. -/
def deleteNotAllowedMsg : String := "Deleting of this SCC is not allowed"

/-- `handleSCC` from handlers.go: a Delete is decided purely from
`req.Name` against the protected map, before any decoding; otherwise the
payload is decoded (HTTP 400 on failure) and the name of the decoded object
gates the protection guard. -/
def handleSCC (decode : RawPayload → Option SecurityContextConstraints)
    (protectedSCCs : List (String × SecurityContextConstraints))
    (req : SCCRequest) : HandlerOutcome :=
  if req.operation == "DELETE" then
    match lookupSCC protectedSCCs req.name with
    | some _ => .response (sendResult [deleteNotAllowedMsg] req.uid)
    | none => .response (sendResult [] req.uid)
  else
    match decode req.raw with
    | none => .httpError 400
    | some scc =>
      match lookupSCC protectedSCCs scc.objectMeta.name with
      | some sccTemplate =>
          .response (sendResult ((verifySCC scc sccTemplate).map renderSCCViolation) req.uid)
      | none => .response (sendResult [] req.uid)

/-! Concrete fixtures used by witnesses and counterexamples. -/

/-- A restricted-SCC pipeline that finds nothing. -/
def scValidateOk : SCCValidator := fun _ _ => .ok []

/-- A restricted-SCC pipeline that reports the privileged-container
violation of the test fixtures. -/
def scValidateReject : SCCValidator := fun _ _ =>
  .ok ["spec.containers[0].securityContext.privileged: Invalid value: true: Privileged containers are not allowed"]

/-- A codec whose decoded object has the unrecognized kind `Namespace`. -/
def decodeNamespaceObj : RawPayload → Option WorkloadObject :=
  fun _ => some (.other "Namespace")

/-- A well-formed review request declaring the unrecognized kind
`Namespace`. -/
def badKindReq : WhitelistRequest :=
  { uid := "uid", kindGroup := "", kindVersion := "v1", kindKind := "Namespace", raw := "" }

/-- A protected template carrying users `A,B,C`, one group, and no
object metadata (like the templates built at startup). -/
def tmplABC : SecurityContextConstraints :=
  { users := ["A", "B", "C"], groups := ["G1"] }

/-- A candidate that keeps `A,B`, drops `C`, adds a group, and carries
the ownership label. -/
def candAB : SecurityContextConstraints :=
  { users := ["A", "B"], groups := ["G1", "G2"],
    objectMeta := { labels := [(ownedBySyncPodLabel, "true")] } }

/-- A protected template whose object metadata is not the zero value
(name, a label) — all other fields like the shipped `anyuid` template. -/
def sccMetaTemplate : SecurityContextConstraints :=
  { objectMeta := { name := "anyuid", labels := [(ownedBySyncPodLabel, "true")] }
    priority := some 10
    requiredDropCapabilities := ["MKNOD"]
    volumes := ["configMap", "downwardAPI", "emptyDir", "persistentVolumeClaim", "projected", "secret"]
    allowPrivilegeEscalation := some true
    seLinuxContext := { typeF := "MustRunAs" }
    runAsUser := { typeF := "RunAsAny" }
    supplementalGroups := { typeF := "RunAsAny" }
    fsGroup := { typeF := "RunAsAny" }
    groups := ["system:cluster-admins"] }

/-- A one-entry protected map. -/
def protExample : List (String × SecurityContextConstraints) := [("anyuid", tmplABC)]

/-- Delete request naming the protected template. -/
def deleteProtReq : SCCRequest :=
  { operation := "DELETE", name := "anyuid", uid := "uid", raw := "ignored" }

/-- Delete request naming a non-protected object. -/
def deleteUnprotReq : SCCRequest :=
  { operation := "DELETE", name := "notprotected", uid := "uid", raw := "ignored" }

/-- Update request whose payload decodes to a non-protected object. -/
def updUnprotReq : SCCRequest :=
  { operation := "UPDATE", name := "notprotected", uid := "uid", raw := "payload" }

/-- A non-protected candidate object. -/
def candUnprot : SecurityContextConstraints :=
  { objectMeta := { name := "notprotected" }, allowPrivilegedContainer := true }

/-- A codec that decodes every payload to the non-protected candidate. -/
def decodeUnprotSCC : RawPayload → Option SecurityContextConstraints :=
  fun _ => some candUnprot

/-- One configured pattern matching exactly `whitelistedimage1`. -/
def wlExample : List ImagePattern := [fun s => s == "whitelistedimage1"]

/-- A pod spec whose single container is privileged but whitelisted. -/
def specPrivWhitelisted : PodSpec :=
  { containers := [{ image := "whitelistedimage1", privileged := some true }] }

/-! Helper lemmas about the shape of the output of `verifySCC`. -/

/-- `verifySCC` written as the concatenation of its four independent
checks. -/
theorem verifySCC_eq (scc tmpl : SecurityContextConstraints) :
    verifySCC scc tmpl =
      (if lookupD scc.objectMeta.labels ownedBySyncPodLabel != "true"
        then [SCCViolation.labelMissing] else [])
      ++ ((tmpl.groups.find? (fun g => ! scc.groups.contains g)).toList.map .groupRemoved)
      ++ ((tmpl.users.find? (fun u => ! scc.users.contains u)).toList.map .userRemoved)
      ++ (if stripForCompare scc ≠ stripTemplateForCompare tmpl
          then [SCCViolation.otherFieldsModified] else []) := by
  unfold verifySCC stripForCompare stripTemplateForCompare
  cases hg : tmpl.groups.find? (fun g => ! scc.groups.contains g) <;>
    cases hu : tmpl.users.find? (fun u => ! scc.users.contains u) <;>
      simp [hg, hu]

/-! The claims. -/

/-- Joining a one-message aggregate is that message. -/
theorem intercalate_singleton (s a : String) : String.intercalate s [a] = a := by
  simp [String.intercalate, String.intercalate.go]

/-- Checking every image of the mapped image list is checking the image
of every container. -/
theorem all_image_map (pats : List ImagePattern) (l : List Container) :
    (l.map (fun c => c.image)).all (fun img => pats.any fun rx => rx img)
      = l.all (fun c => pats.any fun rx => rx c.image) := by
  induction l with
  | nil => rfl
  | cons c t ih => simp [ih]

/-- C1: the whitelist gate `podSpecIsWhitelisted` is equivalent, for
every pod spec and every configured pattern set, to the reference
definition written from the specification: nodeSelector role check, then
nodeName prefix check, then every image of the multiset of container and
init-container images must match at least one configured pattern (empty
multiset vacuously exempt), the three steps tried in that order with
short-circuiting. -/
theorem podSpecIsWhitelisted_equiv_spec (spec : PodSpec) (pats : List ImagePattern) :
    podSpecIsWhitelisted spec pats = podSpecWhitelistedSpec spec pats := by
  unfold podSpecIsWhitelisted podSpecWhitelistedSpec nodeSelectorWhitelisted selectorMaps
  cases spec.nodeSelector <;> simp [imageIsWhitelisted, all_image_map]

/-- C2: on a review request whose decoded object kind is none of the
eight recognized workload kinds, `handleWhitelist` writes the HTTP 501
internal error but, missing a `return`, then invokes the nil unpacking
function — a Go runtime panic — instead of terminating after surfacing
the error.  Evaluated at the failing input (kind `Namespace`). -/
theorem handleWhitelist_unrecognized_kind_panics :
    handleWhitelist [] scValidateOk decodeNamespaceObj badKindReq
        = .httpErrorThenPanic 501
      ∧ kindOf (WorkloadObject.other "Namespace") ∉ recognizedKinds := by
  constructor
  · rfl
  · decide

/-- C3: `verifySCC` reports principal removals with first-miss-only
semantics: the user-removal violations are exactly the first template
user missing from the candidate (none when the users of the candidate are a
superset), and independently likewise for groups; added principals never
produce removal violations. -/
theorem verifySCC_first_miss_only (scc tmpl : SecurityContextConstraints) :
    ((verifySCC scc tmpl).filterMap userRemovedName
        = (tmpl.users.find? (fun u => ! scc.users.contains u)).toList)
    ∧ ((verifySCC scc tmpl).filterMap groupRemovedName
        = (tmpl.groups.find? (fun g => ! scc.groups.contains g)).toList)
    ∧ ((∀ u ∈ tmpl.users, u ∈ scc.users) →
        (verifySCC scc tmpl).filterMap userRemovedName = [])
    ∧ ((∀ g ∈ tmpl.groups, g ∈ scc.groups) →
        (verifySCC scc tmpl).filterMap groupRemovedName = []) := by
  have hu : (verifySCC scc tmpl).filterMap userRemovedName
      = (tmpl.users.find? (fun u => ! scc.users.contains u)).toList := by
    rw [verifySCC_eq]
    cases hfu : tmpl.users.find? (fun u => ! scc.users.contains u) <;>
      cases hfg : tmpl.groups.find? (fun g => ! scc.groups.contains g) <;>
        split <;> split <;>
          simp [List.filterMap_append, userRemovedName, groupRemovedName]
  have hg : (verifySCC scc tmpl).filterMap groupRemovedName
      = (tmpl.groups.find? (fun g => ! scc.groups.contains g)).toList := by
    rw [verifySCC_eq]
    cases hfu : tmpl.users.find? (fun u => ! scc.users.contains u) <;>
      cases hfg : tmpl.groups.find? (fun g => ! scc.groups.contains g) <;>
        split <;> split <;>
          simp [List.filterMap_append, userRemovedName, groupRemovedName]
  refine ⟨hu, hg, ?_, ?_⟩
  · intro hsup
    rw [hu, List.find?_eq_none.mpr]
    · rfl
    · intro u hmem
      simp [List.contains, List.elem_iff, hsup u hmem]
  · intro hsup
    rw [hg, List.find?_eq_none.mpr]
    · rfl
    · intro g hmem
      simp [List.contains, List.elem_iff, hsup g hmem]

/-- Witness for C3 at a concrete removal and a concrete superset: the
candidate that drops `C` from `A,B,C` gets exactly the one violation
naming `C`, and its group list, a superset of the template list, yields no
group-removal violation. -/
theorem verifySCC_first_miss_only_witness :
    (verifySCC candAB tmplABC).filterMap userRemovedName = ["C"]
    ∧ (verifySCC candAB tmplABC).filterMap groupRemovedName = [] := by
  constructor
  · rw [(verifySCC_first_miss_only candAB tmplABC).1]; decide
  · exact (verifySCC_first_miss_only candAB tmplABC).2.2.2 (by decide)

/-- C4, counterexample: the claim that the "metadata exclusion applies to both
sides" fails — for a protected template whose own object metadata is not
the zero value, a candidate bit-for-bit identical to the template (hence
differing in no field other than users/groups/metadata, in fact in no
field) still receives the generic modification violation, because
`verifySCC` zeroes `ObjectMeta` on the candidate copy only. -/
theorem verifySCC_metadata_both_sides_cex :
    stripForCompare sccMetaTemplate = stripForCompare sccMetaTemplate
    ∧ (verifySCC sccMetaTemplate sccMetaTemplate).filter isModificationViolation
        = [.otherFieldsModified] := by
  constructor
  · rfl
  · decide

/-- C4, amended: `verifySCC` emits exactly one generic modification
violation iff the candidate with users, groups and object metadata
zeroed differs from the template with only users and groups zeroed — the
metadata exclusion applies to the candidate side only.  (For templates
whose metadata is the zero value, as in the protected set built at
startup, this coincides with the claim as stated.) -/
theorem verifySCC_modification_candidate_side (scc tmpl : SecurityContextConstraints) :
    (verifySCC scc tmpl).filter isModificationViolation
      = if stripForCompare scc = stripTemplateForCompare tmpl then []
        else [.otherFieldsModified] := by
  rw [verifySCC_eq]
  cases hfu : tmpl.users.find? (fun u => ! scc.users.contains u) <;>
    cases hfg : tmpl.groups.find? (fun g => ! scc.groups.contains g) <;>
      split <;>
        simp_all [List.filter_append, isModificationViolation, ite_not]

/-- C5: `verifySCC` emits the ownership-label violation iff the
label `azure.openshift.io/owned-by-sync-pod` of the candidate is absent or
differs from `"true"` (the Go zero-value map lookup makes absence read as
`""`); the check is independent of the principal and structural checks,
holding for every candidate and template. -/
theorem verifySCC_label_gated (scc tmpl : SecurityContextConstraints) :
    ((verifySCC scc tmpl).filter isLabelViolation
      = if lookupD scc.objectMeta.labels ownedBySyncPodLabel = "true" then []
        else [.labelMissing])
    ∧ (SCCViolation.labelMissing ∈ verifySCC scc tmpl
        ↔ lookupD scc.objectMeta.labels ownedBySyncPodLabel ≠ "true") := by
  have h : (verifySCC scc tmpl).filter isLabelViolation
      = if lookupD scc.objectMeta.labels ownedBySyncPodLabel = "true" then []
        else [.labelMissing] := by
    rw [verifySCC_eq]
    cases hfu : tmpl.users.find? (fun u => ! scc.users.contains u) <;>
      cases hfg : tmpl.groups.find? (fun g => ! scc.groups.contains g) <;>
        split <;> split <;>
          simp_all [List.filter_append, isLabelViolation, bne_iff_ne]
  refine ⟨h, ?_⟩
  have hmem : SCCViolation.labelMissing ∈ verifySCC scc tmpl
      ↔ SCCViolation.labelMissing ∈ (verifySCC scc tmpl).filter isLabelViolation := by
    simp [List.mem_filter, isLabelViolation]
  rw [hmem, h]
  split <;> simp_all

/-- C6: protection is gated purely by name membership in the protected
map — a Delete naming a non-protected object and any Create/Update whose
decoded object has a name that is not protected are allowed with no violations,
regardless of the content of the object; a Delete naming a protected object
is always denied. -/
theorem handleSCC_name_gated
    (decode : RawPayload → Option SecurityContextConstraints)
    (prot : List (String × SecurityContextConstraints))
    (req : SCCRequest) (scc : SecurityContextConstraints) :
    (req.operation = "DELETE" → lookupSCC prot req.name = none →
      handleSCC decode prot req
        = .response { uid := req.uid, allowed := true, status := "Success", message := "" })
    ∧ (req.operation ≠ "DELETE" → decode req.raw = some scc →
        lookupSCC prot scc.objectMeta.name = none →
        handleSCC decode prot req
          = .response { uid := req.uid, allowed := true, status := "Success", message := "" })
    ∧ (req.operation = "DELETE" → (lookupSCC prot req.name).isSome = true →
        handleSCC decode prot req
          = .response { uid := req.uid, allowed := false, status := "Failure",
                        message := deleteNotAllowedMsg }) := by
  refine ⟨?_, ?_, ?_⟩
  · intro hop hname
    simp [handleSCC, hop, hname, sendResult]
  · intro hop hdec hname
    simp [handleSCC, hop, hdec, hname, sendResult]
  · intro hop hsome
    rcases Option.isSome_iff_exists.mp hsome with ⟨t, ht⟩
    simp [handleSCC, hop, ht, sendResult, aggregateError, intercalate_singleton]

/-- Witness for C6: with the one-entry protected map, deleting
`notprotected` is allowed, updating an object decoding to a
non-protected name is allowed, and deleting the protected `anyuid` is
denied. -/
theorem handleSCC_name_gated_witness :
    handleSCC decodeUnprotSCC protExample deleteUnprotReq
      = .response { uid := "uid", allowed := true, status := "Success", message := "" }
    ∧ handleSCC decodeUnprotSCC protExample updUnprotReq
      = .response { uid := "uid", allowed := true, status := "Success", message := "" }
    ∧ handleSCC decodeUnprotSCC protExample deleteProtReq
      = .response { uid := "uid", allowed := false, status := "Failure",
                    message := deleteNotAllowedMsg } := by
  refine ⟨?_, ?_, ?_⟩
  · exact (handleSCC_name_gated decodeUnprotSCC protExample deleteUnprotReq candUnprot).1
      rfl (by decide)
  · exact (handleSCC_name_gated decodeUnprotSCC protExample updUnprotReq candUnprot).2.1
      (by decide) rfl (by decide)
  · exact (handleSCC_name_gated decodeUnprotSCC protExample deleteProtReq candUnprot).2.2
      rfl (by decide)

/-- C7: the decision synthesizer maps the empty violation sequence to an
allowed verdict with no failure message, and every non-empty sequence to
a denied verdict whose message is the rendered messages of the violations
joined by the fixed separator in the order produced, with no reordering
and no deduplication; `checkPodSpec` feeds the sequence from the evaluator to
it unchanged. -/
theorem sendResult_synthesis (errs : List String) (uid : String)
    (wl : List ImagePattern) (scv : SCCValidator) (spec : PodSpec)
    (meta : ObjectMeta) (ns : String) :
    (errs = [] →
      sendResult errs uid
        = { uid := uid, allowed := true, status := "Success", message := "" })
    ∧ (errs ≠ [] →
        (sendResult errs uid).allowed = false
        ∧ (sendResult errs uid).message = String.intercalate ", " errs)
    ∧ (validatePodAgainstSCC wl scv { spec := spec, metadata := meta } ns = .ok errs →
        checkPodSpec wl scv spec meta ns uid = .response (sendResult errs uid)) := by
  refine ⟨?_, ?_, ?_⟩
  · intro h
    simp [h, sendResult]
  · intro h
    simp [sendResult, aggregateError, h]
  · intro h
    simp [checkPodSpec, h]

/-- Witness for C7 at a duplicated violation message: two identical
messages both appear in the aggregate, joined by the separator. -/
theorem sendResult_synthesis_witness :
    (sendResult ["m", "m"] "uid").allowed = false
    ∧ (sendResult ["m", "m"] "uid").message = String.intercalate ", " ["m", "m"]
    ∧ (sendResult ["m", "m"] "uid").message = "m, m" := by
  have h := (sendResult_synthesis ["m", "m"] "uid" [] scValidateOk {} {} "").2.1
    (by decide)
  exact ⟨h.1, h.2, by rw [h.2]; rfl⟩

/-- C8: the whitelist gate is monotonic in the rest of the pod spec —
whenever every container and init-container image matches some
configured pattern, validation returns no violations and the verdict is
allowed, whatever the other fields of the spec (privileged containers
included) and whatever the restricted-SCC pipeline would have said. -/
theorem whitelist_gate_monotonic (wl : List ImagePattern) (scv : SCCValidator)
    (spec : PodSpec) (meta : ObjectMeta) (ns uid : String)
    (h : (spec.containers ++ spec.initContainers).all
          (fun c => imageIsWhitelisted c.image wl) = true) :
    validatePodAgainstSCC wl scv { spec := spec, metadata := meta } ns = .ok []
    ∧ checkPodSpec wl scv spec meta ns uid
        = .response { uid := uid, allowed := true, status := "Success", message := "" } := by
  have hwl : podSpecIsWhitelisted spec wl = true := by
    unfold podSpecIsWhitelisted
    split
    · rfl
    · split
      · rfl
      · exact h
  have hval : validatePodAgainstSCC wl scv { spec := spec, metadata := meta } ns = .ok [] := by
    simp [validatePodAgainstSCC, hwl]
  exact ⟨hval, by simp [checkPodSpec, hval, sendResult]⟩

/-- Witness for C8: a pod whose single container is privileged but whose
image matches the configured pattern is allowed even against a pipeline
that would reject it. -/
theorem whitelist_gate_monotonic_witness :
    ((specPrivWhitelisted.containers ++ specPrivWhitelisted.initContainers).all
        (fun c => imageIsWhitelisted c.image wlExample) = true)
    ∧ checkPodSpec wlExample scValidateReject specPrivWhitelisted {} "default" "uid"
        = .response { uid := "uid", allowed := true, status := "Success", message := "" } := by
  refine ⟨by rfl, ?_⟩
  exact (whitelist_gate_monotonic wlExample scValidateReject specPrivWhitelisted {}
    "default" "uid" (by rfl)).2

/-- C10: on the Delete path the verdict is a function only of the
object name and the protected set only — the payload is never decoded,
so two Delete requests differing only in their payload bytes receive the
same outcome. -/
theorem handleSCC_delete_payload_independent
    (decode : RawPayload → Option SecurityContextConstraints)
    (prot : List (String × SecurityContextConstraints))
    (name uid : String) (raw1 raw2 : RawPayload) :
    handleSCC decode prot { operation := "DELETE", name := name, uid := uid, raw := raw1 }
      = handleSCC decode prot { operation := "DELETE", name := name, uid := uid, raw := raw2 } := by
  rfl

end AroAdmission
